import Mathlib

/-!
Verification of the Portfolio Analyzer (`src/app.py`).

The script is a straight-line Streamlit program over a pandas dataframe.
We embed it shallowly:

* File cell values are exact rationals (`ℚ`).  A pandas float cell that can
  also be `NaN` (because a live-price lookup returned `None`) is an
  `Option ℚ`.  When at least one lookup succeeded the applied column is
  float64 and pandas converts `None` to `NaN`, which propagates through
  `*`, `-` (masked arithmetic), so those columns are modelled with
  `Option.map`.  When *every* lookup returned `None` the column stays
  object dtype holding the literal `None`: the masked column arithmetic
  of lines 53-56 still yields `NaN`, but the row-wise `calculate_cagr`
  on line 62 then receives `None` itself and `None / buyPrice` raises an
  uncaught `TypeError` for the first row with a positive buy price — a
  distinct crash path of the script model.
* A pandas float that can additionally be `inf`/`-inf` (division by zero)
  is a `PVal`.
* The CAGR formula uses a real exponent; values that can be real or `NaN`
  are `RVal` over `ℝ`.
* Exceptions (`KeyError`, `TypeError`, `ZeroDivisionError`, `IndexError`)
  are `Except` errors; the Streamlit script renders incrementally, so the
  whole run is a function to `List Out × Option Err`: the outputs rendered
  before the first uncaught exception, and that exception if one occurred.
-/

/-- Python exception kinds raised by the script. -/
inductive Err where
  | keyError
  | typeError
  | zeroDivisionError
  | indexError
deriving DecidableEq, Repr

/-- A pandas float cell: a finite value, `NaN`, `inf` or `-inf`. -/
inductive PVal where
  | num (q : ℚ)
  | nan
  | inf
  | ninf
deriving DecidableEq, Repr

/-- A real-valued cell that can be `NaN` (used for the CAGR column and the
risk statistics, whose finite values are genuine reals). -/
inductive RVal where
  | rnum (x : ℝ)
  | rnan

/-- Scalar multiplication on an `RVal`: `NaN * c = NaN` (IEEE semantics,
`c` finite). -/
def RVal.scale (v : RVal) (c : ℝ) : RVal :=
  match v with
  | .rnum x => .rnum (x * c)
  | .rnan => .rnan

/- ------------------------------------------------------------------ -/
/- Valuation Calculator: the derived columns of lines 50-56 of app.py. -/
/- ------------------------------------------------------------------ -/

/-- `df["CurrentValue"] = df["LivePrice"] * df["Quantity"]` (line 53).
`LivePrice` is `NaN` when the lookup failed, and `NaN * q = NaN`. -/
def currentValue (livePrice : Option ℚ) (quantity : ℚ) : Option ℚ :=
  livePrice.map (fun p => p * quantity)

/-- `df["InvestedValue"] = df["BuyPrice"] * df["Quantity"]` (line 54).
Both columns come from the file, so the value is always present. -/
def investedValue (buyPrice quantity : ℚ) : ℚ :=
  buyPrice * quantity

/-- `df["P/L"] = df["CurrentValue"] - df["InvestedValue"]` (line 55);
`NaN - x = NaN`. -/
def profitLoss (cv : Option ℚ) (iv : ℚ) : Option ℚ :=
  cv.map (fun c => c - iv)

/-- Float division of a possibly-`NaN` numerator by a present denominator,
with IEEE zero-denominator semantics: `p/0` is `+inf`, `-inf` or `NaN`
according to the sign of `p` (pandas emits these, it does not raise). -/
def pdiv (p : Option ℚ) (d : ℚ) : PVal :=
  match p with
  | none => .nan
  | some p =>
      if d = 0 then
        if p > 0 then .inf else if p < 0 then .ninf else .nan
      else .num (p / d)

/-- Multiplication of a float cell by the positive constant 100. -/
def pmul100 (v : PVal) : PVal :=
  match v with
  | .num q => .num (q * 100)
  | .nan => .nan
  | .inf => .inf
  | .ninf => .ninf

/-- `df["Returns %"] = (df["P/L"] / df["InvestedValue"]) * 100` (line 56). -/
def returnsPct (pl : Option ℚ) (iv : ℚ) : PVal :=
  pmul100 (pdiv pl iv)

/- ------------------------------------------------------------------ -/
/- CAGR (lines 12-13, applied per row on line 62).                     -/
/- ------------------------------------------------------------------ -/

/-- `calculate_cagr(start_value, end_value, years)` (lines 12-13):
`(end_value / start_value) ** (1/years) - 1 if start_value > 0 else 0`.
Python's `1/years` raises `ZeroDivisionError` when `years == 0` (and
`start_value > 0`, since the conditional expression short-circuits);
`**` is real exponentiation (`Real.rpow`). -/
noncomputable def calculate_cagr (start_value end_value years : ℝ) :
    Except Err ℝ :=
  if start_value > 0 then
    if years = 0 then .error .zeroDivisionError
    else .ok ((end_value / start_value) ^ ((1 : ℝ) / years) - 1)
  else .ok 0

/-- The `CAGR` column (line 62): `calculate_cagr` applied to the row's
`BuyPrice`, `LivePrice` and `Years`, for a float `LivePrice` column
(at least one lookup succeeded; the all-`None` object-dtype case raises
`TypeError` earlier and is handled in `runScript`).  A failed lookup is
a `NaN` cell; then `NaN/start = NaN` and `NaN ** e = NaN` for the
nonzero exponent `1/years`, so the cell is `NaN`.  `years = 0` still
raises, since `1/years` is evaluated regardless of the `NaN`. -/
noncomputable def cagr_column (buyPrice : ℚ) (livePrice : Option ℚ)
    (years : ℚ) : Except Err RVal :=
  if buyPrice > 0 then
    if years = 0 then .error .zeroDivisionError
    else .ok (match livePrice with
      | none => .rnan
      | some p => .rnum (((p : ℝ) / (buyPrice : ℝ)) ^ ((1 : ℝ) / (years : ℝ)) - 1))
  else .ok (.rnum 0)

/- ------------------------------------------------------------------ -/
/- Live-price lookup (lines 26-28).                                    -/
/- ------------------------------------------------------------------ -/

/-- `data["Close"].iloc[-1]`: trailing-element access, raising
`IndexError` on an empty series. -/
def ilocLast (l : List ℚ) : Except Err ℚ :=
  match l.getLast? with
  | some x => .ok x
  | none => .error .indexError

/-- `get_live_price(symbol)` (lines 26-28): fetch the 1-day history and
return `data["Close"].iloc[-1] if not data.empty else None`.  The
argument is the fetched close series; the emptiness guard keeps the
trailing access from ever raising. -/
def get_live_price (closes : List ℚ) : Except Err (Option ℚ) :=
  if closes.isEmpty then .ok none
  else (ilocLast closes).map some

/- ------------------------------------------------------------------ -/
/- NaN-skipping sums (pandas `.sum()` with skipna, lines 74-75, 85).   -/
/- ------------------------------------------------------------------ -/

/-- pandas `Series.sum()`: `NaN` entries are skipped. -/
def nansum (l : List (Option ℚ)) : ℚ :=
  (l.filterMap id).sum

/-- `df.groupby("Sector")["CurrentValue"].sum()` (line 85) on a list of
(sector, CurrentValue) pairs: one summed entry per distinct sector.
(pandas sorts the group keys; we keep first-occurrence order, which has
the same set of (key, sum) pairs.) -/
def sector_data (rows : List (String × Option ℚ)) : List (String × ℚ) :=
  ((rows.map Prod.fst).dedup).map
    (fun s => (s, nansum ((rows.filter (fun r => r.1 = s)).map Prod.snd)))

/- ------------------------------------------------------------------ -/
/- Risk Aggregator (lines 93-100).                                     -/
/- ------------------------------------------------------------------ -/

/-- Helper for `pct_change`: the returns after a given previous close. -/
noncomputable def pctAux : ℝ → List ℝ → List (Option ℝ)
  | _, [] => []
  | prev, x :: xs => some ((x - prev) / prev) :: pctAux x xs

/-- `hist["Close"].pct_change()` (line 97): the first cell is `NaN`, then
`(close_t - close_(t-1)) / close_(t-1)` for each consecutive pair. -/
noncomputable def pct_change : List ℝ → List (Option ℝ)
  | [] => []
  | c :: rest => none :: pctAux c rest

/-- pandas `Series.mean()` on plain values: `NaN` for an empty series. -/
noncomputable def pmeanList (l : List ℝ) : RVal :=
  if l.length = 0 then .rnan else .rnum (l.sum / l.length)

/-- pandas `Series.std()` (sample standard deviation, `ddof=1`) on plain
values: `NaN` when fewer than 2 values. -/
noncomputable def pstdList (l : List ℝ) : RVal :=
  if l.length < 2 then .rnan
  else .rnum (Real.sqrt ((l.map (fun x => (x - l.sum / l.length) ^ 2)).sum
    / (l.length - 1)))

/-- pandas `Series.mean()` with skipna: `NaN` entries are dropped first. -/
noncomputable def pmean (l : List (Option ℝ)) : RVal :=
  pmeanList (l.filterMap id)

/-- pandas `Series.std()` with skipna: `NaN` entries are dropped first. -/
noncomputable def pstd (l : List (Option ℝ)) : RVal :=
  pstdList (l.filterMap id)

/-- `vol = hist["DailyReturn"].std() * np.sqrt(252)` (line 98). -/
noncomputable def riskVol (closes : List ℝ) : RVal :=
  (pstd (pct_change closes)).scale (Real.sqrt 252)

/-- `avg_return = hist["DailyReturn"].mean() * 252` (line 99). -/
noncomputable def riskAnnualReturn (closes : List ℝ) : RVal :=
  (pmean (pct_change closes)).scale 252

/-- The spec's daily simple returns: `r_t = (close_t - close_(t-1)) /
close_(t-1)` for each consecutive pair (no `NaN` cell).  Stated from the
spec's words, to be compared with the `pct_change` pipeline. -/
noncomputable def spec_dailyReturns (closes : List ℝ) : List ℝ :=
  List.zipWith (fun prev cur => (cur - prev) / prev) closes closes.tail

/-- The spec's `volatility = stdev(r) * sqrt(252)`, `r` the daily simple
returns. -/
noncomputable def spec_volatility (closes : List ℝ) : RVal :=
  (pstdList (spec_dailyReturns closes)).scale (Real.sqrt 252)

/-- The spec's `annualReturn = mean(r) * 252`. -/
noncomputable def spec_annualReturn (closes : List ℝ) : RVal :=
  (pmeanList (spec_dailyReturns closes)).scale 252

/- ------------------------------------------------------------------ -/
/- The script (lines 43-130): incremental rendering with exceptions.   -/
/- ------------------------------------------------------------------ -/

/-- One input row of the uploaded file, with `Years` precomputed from the
day count of `today - BuyDate` (line 61: `days / 365`). -/
structure RawRow where
  symbol : String
  quantity : ℚ
  buyPrice : ℚ
  daysHeld : ℤ
deriving DecidableEq, Repr

/-- `df["Years"]` for a row: `(today - BuyDate).days / 365` (line 61). -/
def yearsOf (r : RawRow) : ℚ :=
  (r.daysHeld : ℚ) / 365

/-- The uploaded dataframe: which required columns are present, and the
row data (meaningful only for present columns; a missing column raises
`KeyError` at its first access, before its data is ever read). -/
structure UploadedFile where
  hasSymbol : Bool
  hasQuantity : Bool
  hasBuyPrice : Bool
  hasBuyDate : Bool
  rows : List RawRow
deriving DecidableEq, Repr

/-- The Streamlit elements the script renders, in order.  Tables carry the
data the later claims are about: the holdings table carries each row's
symbol and (possibly missing) live price — its remaining columns are the
functions `currentValue`, `investedValue`, `profitLoss`, `returnsPct`,
`cagr_column` of those values; the risk table carries the symbol list —
its `Volatility`/`AnnualReturn` columns are `riskVol`/`riskAnnualReturn`
of that symbol's history. -/
inductive Out where
  | successMsg
  | fetchingHeader
  | cagrHeader
  | holdingsTable (rows : List (String × Option ℚ))
  | summaryHeader
  | metricTotalInvested (v : ℚ)
  | metricTotalCurrent (v : ℚ)
  | metricTotalPL (v : ℚ)
  | sectorHeader
  | sectorPie (alloc : List (String × ℚ))
  | riskHeader
  | riskTable (symbols : List String)
  | riskScatter
  | benchHeader
  | metricPortfolioReturn (v : PVal)
  | metricNiftyReturn (v : PVal)
  | uploadInfo
deriving DecidableEq, Repr

/-- The whole `if uploaded_file:` body (lines 43-130) plus the closing
`st.info` (line 130), as a function from the uploaded file and the market
data (live price, sector and 1-year history per symbol, benchmark close
series) to the outputs rendered before the first uncaught exception,
paired with that exception if any:

* lines 46/49: success message and fetching header;
* line 50: `df["Symbol"]` — `KeyError` if the column is missing — then
  the live-price column (the per-symbol close series is the `live`
  argument; `get_live_price` itself never raises, see its guard);
* lines 53-56: `df["Quantity"]`, `df["BuyPrice"]` accesses (KeyError if
  missing) and the derived columns;
* lines 59-62: CAGR header, `df["BuyDate"]` access, then the row-wise
  `calculate_cagr`.  If every lookup failed, `LivePrice` is an
  object-dtype column of `None` and the first row with `BuyPrice > 0`
  raises `TypeError` in `end_value / start_value` (evaluated before
  `1/years`, so it preempts `ZeroDivisionError`); otherwise the column
  is float (`None` became `NaN`) and the first row with `BuyPrice > 0`
  and `Years == 0` raises `ZeroDivisionError`;
* line 68: the enriched table;
* lines 72-80: summary header and the three metrics (pandas sums skip
  `NaN`);
* lines 84-87: sector header and pie over `sector_data`;
* lines 91-111: risk header; the loop keeps each symbol whose 1-year
  history is non-empty; table and scatter only when the list is
  non-empty;
* lines 115-125: benchmark header; `nifty.iloc[-1]` raises `IndexError`
  on an empty benchmark series; otherwise the two return metrics;
* line 130: the closing info message (never reached after an exception).
-/
def runScript (f : UploadedFile) (live : String → Option ℚ)
    (sector : String → String) (hist : String → List ℚ)
    (nifty : List ℚ) : List Out × Option Err :=
  let os0 : List Out := [.successMsg, .fetchingHeader]
  if ¬ f.hasSymbol then (os0, some .keyError) else
  if ¬ f.hasQuantity then (os0, some .keyError) else
  if ¬ f.hasBuyPrice then (os0, some .keyError) else
  let os1 := os0 ++ [.cagrHeader]
  if ¬ f.hasBuyDate then (os1, some .keyError) else
  if f.rows.all (fun r => (live r.symbol).isNone)
      && f.rows.any (fun r => r.buyPrice > 0) then
    (os1, some .typeError)
  else
  if f.rows.any (fun r => r.buyPrice > 0 ∧ yearsOf r = 0) then
    (os1, some .zeroDivisionError)
  else
  let priced : List (String × Option ℚ) :=
    f.rows.map (fun r => (r.symbol, live r.symbol))
  let cvs : List (Option ℚ) :=
    f.rows.map (fun r => currentValue (live r.symbol) r.quantity)
  let total_invested : ℚ :=
    (f.rows.map (fun r => investedValue r.buyPrice r.quantity)).sum
  let total_current : ℚ := nansum cvs
  let sectored : List (String × Option ℚ) :=
    f.rows.map (fun r => (sector r.symbol, currentValue (live r.symbol) r.quantity))
  let riskSyms : List String :=
    (f.rows.map RawRow.symbol).filter (fun s => ¬ (hist s).isEmpty)
  let os2 := os1 ++ [.holdingsTable priced, .summaryHeader,
    .metricTotalInvested total_invested, .metricTotalCurrent total_current,
    .metricTotalPL (total_current - total_invested), .sectorHeader,
    .sectorPie (sector_data sectored), .riskHeader]
  let os3 := os2 ++
    (if riskSyms.isEmpty then [] else [.riskTable riskSyms, .riskScatter])
  let os4 := os3 ++ [.benchHeader]
  match nifty.getLast?, nifty.head? with
  | some lastP, some firstP =>
      let nifty_return := pmul100 (pdiv (some (lastP - firstP)) firstP)
      let portfolio_return :=
        pmul100 (pdiv (some (total_current - total_invested)) total_invested)
      (os4 ++ [.metricPortfolioReturn portfolio_return,
        .metricNiftyReturn nifty_return, .uploadInfo], none)
  | _, _ => (os4, some .indexError)

/- ------------------------------------------------------------------ -/
/- Sample data for concrete witnesses and counterexamples.             -/
/- ------------------------------------------------------------------ -/

/-- A sample holding: 1 share of "A" bought a year ago at 10. -/
def sampleRow : RawRow :=
  { symbol := "A", quantity := 1, buyPrice := 10, daysHeld := 365 }

/-- A well-formed uploaded file with the single sample holding. -/
def sampleFile : UploadedFile :=
  { hasSymbol := true, hasQuantity := true, hasBuyPrice := true,
    hasBuyDate := true, rows := [sampleRow] }

/-- A live-price lookup that succeeds everywhere with price 100. -/
def samplePrices : String → Option ℚ := fun _ => some 100

/-- A sector lookup that always resolves to "Tech". -/
def sampleSector : String → String := fun _ => "Tech"

/-- A history fetch returning a 1-point close series for every symbol. -/
def sampleHist : String → List ℚ := fun _ => [100]

/- ------------------------------------------------------------------ -/
/- Claims.                                                             -/
/- ------------------------------------------------------------------ -/

/-- C10: for every symbol whose 1-day history fetch returns a close
series, `get_live_price` returns without raising (`Except.ok`), and in
particular returns `ok none` — not an exception — when the series is
empty: the trailing-element access is guarded by the emptiness check. -/
theorem get_live_price_never_raises (closes : List ℚ) :
    (∃ v, get_live_price closes = Except.ok v) ∧
    (closes = [] → get_live_price closes = Except.ok none) := by
  constructor
  · cases closes with
    | nil => exact ⟨none, rfl⟩
    | cons c cs =>
        obtain ⟨x, hx⟩ := Option.isSome_iff_exists.mp
          (List.getLast?_isSome.mpr (List.cons_ne_nil c cs))
        exact ⟨some x, by simp [get_live_price, ilocLast, hx, Except.map]⟩
  · intro h
    subst h
    rfl

/-- C10 witness: on the concrete empty series the lookup returns
`ok none`. -/
theorem get_live_price_never_raises_inst :
    get_live_price ([] : List ℚ) = Except.ok none :=
  (get_live_price_never_raises []).2 rfl

/-- C1 counterexample: the claim says `cagr = 0` whenever
`yearsHeld <= 0`, but at `buyPrice = 1`, `livePrice = 2`,
`yearsHeld = -1` (a buy date in the future) the code computes
`(2/1) ^ (1/(-1)) - 1 = -1/2`, not `0`: the source guards only
`start_value > 0`, never `years`. -/
theorem calculate_cagr_neg_years_counterexample :
    calculate_cagr 1 2 (-1) = Except.ok (-(1/2) : ℝ) ∧
    calculate_cagr 1 2 (-1) ≠ Except.ok 0 := by
  have hpow : ((2:ℝ)/1) ^ ((1:ℝ)/(-1)) = 2⁻¹ := by
    rw [show ((2:ℝ)/1) = 2 by norm_num, show ((1:ℝ)/(-1)) = -1 by norm_num]
    rw [show (-1 : ℝ) = ((-1 : ℤ) : ℝ) by norm_num, Real.rpow_intCast]
    norm_num
  have h1 : calculate_cagr 1 2 (-1) = Except.ok (-(1/2) : ℝ) := by
    rw [calculate_cagr, if_pos (by norm_num), if_neg (by norm_num), hpow]
    norm_num
  refine ⟨h1, ?_⟩
  rw [h1]
  intro h
  have := Except.ok.inj h
  norm_num at this

/-- C1 (amended): `cagr = 0` whenever `buyPrice <= 0` (regardless of
`yearsHeld`); when `buyPrice > 0` and `yearsHeld = 0` the computation
raises `ZeroDivisionError` rather than returning `0`; and when
`buyPrice > 0` and `yearsHeld /= 0` (including negative years) it
returns `(livePrice/buyPrice) ^ (1/yearsHeld) - 1` exactly. -/
theorem calculate_cagr_characterization (s e y : ℝ) :
    (s ≤ 0 → calculate_cagr s e y = Except.ok 0) ∧
    (0 < s → y = 0 → calculate_cagr s e y = Except.error Err.zeroDivisionError) ∧
    (0 < s → y ≠ 0 →
      calculate_cagr s e y = Except.ok ((e / s) ^ ((1:ℝ) / y) - 1)) := by
  refine ⟨fun h => ?_, fun hs hy => ?_, fun hs hy => ?_⟩
  · rw [calculate_cagr, if_neg (not_lt.mpr h)]
  · rw [calculate_cagr, if_pos hs, if_pos hy]
  · rw [calculate_cagr, if_pos hs, if_neg hy]

/-- C1 witness: a concrete good-path evaluation, `buyPrice = 2`,
`livePrice = 8`, `yearsHeld = 3`. -/
theorem calculate_cagr_characterization_inst :
    calculate_cagr 2 8 3 = Except.ok (((8:ℝ) / 2) ^ ((1:ℝ) / 3) - 1) :=
  (calculate_cagr_characterization 2 8 3).2.2 (by norm_num) (by norm_num)

/-- C7: for every row, `currentValue = livePrice * quantity`,
`investedValue = buyPrice * quantity`, and
`currentValue - investedValue = profitLoss` holds exactly in exact
(rational) arithmetic, with no tolerance. -/
theorem valuation_identities (p buy qty : ℚ) :
    currentValue (some p) qty = some (p * qty) ∧
    investedValue buy qty = buy * qty ∧
    profitLoss (currentValue (some p) qty) (investedValue buy qty)
      = some (p * qty - buy * qty) := by
  refine ⟨rfl, rfl, ?_⟩
  simp [currentValue, investedValue, profitLoss]

/-- C6 counterexample: at `buyPrice = 0`, `quantity = 1`,
`livePrice = 5` the invested value is `0` and the profit is positive, so
pandas computes `Returns % = +inf` — an (infinite) numeric value, not the
claimed `Undefined`/not-a-number placeholder. -/
theorem returnsPct_zero_invested_counterexample :
    investedValue 0 1 = 0 ∧
    returnsPct (profitLoss (currentValue (some 5) 1) (investedValue 0 1))
      (investedValue 0 1) = PVal.inf ∧
    PVal.inf ≠ PVal.nan := by
  refine ⟨by norm_num [investedValue], ?_, by simp⟩
  norm_num [returnsPct, pdiv, pmul100, profitLoss, currentValue, investedValue]

/-- C6 (amended): with `investedValue /= 0` (in particular `> 0`),
`returnPct = profitLoss / investedValue * 100`; with
`investedValue = 0`, `returnPct` is `NaN` when `profitLoss = 0` (the
spec's quantity-0 example), but `+inf` when `profitLoss > 0` and `-inf`
when `profitLoss < 0` (e.g. `buyPrice = 0` with a positive quantity);
in every case a float value is produced, never a division crash.  A
missing profit (failed lookup) gives `NaN`. -/
theorem returnsPct_characterization (pl iv : ℚ) :
    (iv ≠ 0 → returnsPct (some pl) iv = PVal.num (pl / iv * 100)) ∧
    (iv = 0 → pl = 0 → returnsPct (some pl) iv = PVal.nan) ∧
    (iv = 0 → 0 < pl → returnsPct (some pl) iv = PVal.inf) ∧
    (iv = 0 → pl < 0 → returnsPct (some pl) iv = PVal.ninf) ∧
    returnsPct none iv = PVal.nan := by
  refine ⟨fun h => ?_, fun h h0 => ?_, fun h hp => ?_, fun h hn => ?_, rfl⟩
  · simp [returnsPct, pdiv, pmul100, h]
  · simp [returnsPct, pdiv, pmul100, h, h0]
  · simp [returnsPct, pdiv, pmul100, h, hp, not_lt.mpr (le_of_lt hp)]
  · simp [returnsPct, pdiv, pmul100, h, hn, not_lt.mpr (le_of_lt hn), asymm hn]

/-- C6 witness: a concrete positive-invested row, `P/L = 50` on
`InvestedValue = 100`. -/
theorem returnsPct_characterization_inst :
    returnsPct (some 50) 100 = PVal.num (50 / 100 * 100) :=
  (returnsPct_characterization 50 100).1 (by norm_num)

/-- The NaN-skipping sum over a cons: a missing head contributes 0. -/
theorem nansum_cons (a : Option ℚ) (l : List (Option ℚ)) :
    nansum (a :: l) = a.getD 0 + nansum l := by
  cases a <;> simp [nansum]

/-- Splitting a NaN-skipping sum along a Boolean predicate on rows. -/
theorem nansum_filter_split (P : String × Option ℚ → Bool)
    (rows : List (String × Option ℚ)) :
    nansum ((rows.filter P).map Prod.snd)
      + nansum ((rows.filter (fun r => !(P r))).map Prod.snd)
      = nansum (rows.map Prod.snd) := by
  induction rows with
  | nil => simp [nansum]
  | cons r l ih =>
      cases hP : P r <;>
        simp [hP, nansum_cons] <;> linarith [ih]

/-- Rows with key `s'` are untouched by first dropping the rows with a
different key `s`. -/
theorem filter_key_of_ne (s s' : String) (h : s' ≠ s)
    (rows : List (String × Option ℚ)) :
    rows.filter (fun r => r.1 = s')
      = (rows.filter (fun r => !(decide (r.1 = s)))).filter (fun r => r.1 = s') := by
  rw [List.filter_filter]
  apply List.filter_congr
  intro a _
  by_cases ha : a.1 = s'
  · have has : ¬ a.1 = s := fun he => h (ha.symm.trans he)
    simp [ha, has]
    exact h
  · simp [ha]

/-- Summing the per-key group sums over any duplicate-free key list
covering the rows gives the NaN-skipping total. -/
theorem sector_sum_over_keys (keys : List String) :
    ∀ rows : List (String × Option ℚ), keys.Nodup →
    (∀ r ∈ rows, r.1 ∈ keys) →
    ((keys.map (fun s =>
        nansum ((rows.filter (fun r => r.1 = s)).map Prod.snd))).sum
      = nansum (rows.map Prod.snd)) := by
  induction keys with
  | nil =>
      intro rows _ hmem
      have : rows = [] := by
        cases rows with
        | nil => rfl
        | cons r l => exact absurd (hmem r (by simp)) (by simp)
      subst this
      simp [nansum]
  | cons s ks ih =>
      intro rows hnd hmem
      have hs : s ∉ ks := (List.nodup_cons.mp hnd).1
      have hnd' : ks.Nodup := (List.nodup_cons.mp hnd).2
      have hmap : ks.map (fun s' =>
          nansum ((rows.filter (fun r => r.1 = s')).map Prod.snd))
        = ks.map (fun s' =>
          nansum (((rows.filter (fun r => !(decide (r.1 = s)))).filter
            (fun r => r.1 = s')).map Prod.snd)) := by
        apply List.map_congr_left
        intro s' hs'
        rw [← filter_key_of_ne s s' (fun he => hs (he ▸ hs'))]
      have hmem' : ∀ r ∈ rows.filter (fun r => !(decide (r.1 = s))), r.1 ∈ ks := by
        intro r hr
        have h1 := List.mem_filter.mp hr
        have h2 := hmem r h1.1
        simp at h2
        rcases h2 with h2 | h2
        · exact absurd (decide_eq_true h2) (by simpa using h1.2)
        · exact h2
      calc ((s :: ks).map (fun s' =>
            nansum ((rows.filter (fun r => r.1 = s')).map Prod.snd))).sum
          = nansum ((rows.filter (fun r => r.1 = s)).map Prod.snd)
            + (ks.map (fun s' =>
                nansum ((rows.filter (fun r => r.1 = s')).map Prod.snd))).sum := by
            simp
        _ = nansum ((rows.filter (fun r => r.1 = s)).map Prod.snd)
            + nansum ((rows.filter (fun r => !(decide (r.1 = s)))).map Prod.snd) := by
            rw [hmap, ih _ hnd' hmem']
        _ = nansum (rows.map Prod.snd) := by
            have := nansum_filter_split (fun r => decide (r.1 = s)) rows
            simpa using this

/-- Helper: the sector allocation values add up to the NaN-skipping sum
of all `CurrentValue` cells. -/
theorem sector_data_sum_eq (rows : List (String × Option ℚ)) :
    ((sector_data rows).map Prod.snd).sum = nansum (rows.map Prod.snd) := by
  rw [sector_data, List.map_map]
  have := sector_sum_over_keys ((rows.map Prod.fst).dedup) rows
    (List.nodup_dedup _)
    (fun r hr => List.mem_dedup.mpr (List.mem_map_of_mem Prod.fst hr))
  simpa [Function.comp] using this

/-- C8: for every portfolio, grouping the holdings by sector and summing
`CurrentValue` per group (`sector_data`, line 85) loses and double-counts
nothing: the sector allocation values add up exactly (hence within any
tolerance) to `totalCurrent`, the NaN-skipping sum of `CurrentValue`
(lines 74-75). -/
theorem sector_totals (rows : List (String × Option ℚ)) :
    ((sector_data rows).map Prod.snd).sum = nansum (rows.map Prod.snd) :=
  sector_data_sum_eq rows

/-- The non-`NaN` cells of the returns after `prev` are exactly the
spec's consecutive-pair returns of `prev :: xs`. -/
theorem pctAux_filterMap (xs : List ℝ) : ∀ prev : ℝ,
    (pctAux prev xs).filterMap id = spec_dailyReturns (prev :: xs) := by
  induction xs with
  | nil => intro prev; simp [pctAux, spec_dailyReturns]
  | cons x xs ih =>
      intro prev
      simp only [pctAux, List.filterMap_cons, id, spec_dailyReturns,
        List.tail_cons, List.zipWith_cons_cons]
      rw [show (List.zipWith (fun prev cur => (cur - prev) / prev) (x :: xs) xs)
          = spec_dailyReturns (x :: xs) by simp [spec_dailyReturns]]
      rw [← ih x]

/-- Dropping the `NaN` cells of `pct_change` leaves exactly the spec's
daily simple returns. -/
theorem pct_change_filterMap (closes : List ℝ) :
    (pct_change closes).filterMap id = spec_dailyReturns closes := by
  cases closes with
  | nil => simp [pct_change, spec_dailyReturns]
  | cons c rest =>
      simp only [pct_change, List.filterMap_cons, id]
      exact pctAux_filterMap rest c

/-- C4: for every price series with at least 2 points, the risk record is
the statistics of the daily simple returns `r_t = (close_t -
close_(t-1)) / close_(t-1)` over consecutive pairs — the `NaN` head of
`pct_change` is skipped by the pandas aggregations — with `volatility =
stdev(r) * sqrt(252)` and `annualReturn = mean(r) * 252`, and the series
has exactly `length - 1` daily returns (3 for a 4-point series). -/
theorem risk_stats_from_daily_returns (closes : List ℝ)
    (_h : 2 ≤ closes.length) :
    riskVol closes = spec_volatility closes ∧
    riskAnnualReturn closes = spec_annualReturn closes ∧
    (spec_dailyReturns closes).length = closes.length - 1 := by
  refine ⟨?_, ?_, ?_⟩
  · rw [riskVol, spec_volatility, pstd, pct_change_filterMap]
  · rw [riskAnnualReturn, spec_annualReturn, pmean, pct_change_filterMap]
  · simp [spec_dailyReturns]

/-- C4 witness: the spec's 4-point example series has exactly 3 daily
returns, and the code's statistics agree with the spec formulas there. -/
theorem risk_stats_from_daily_returns_inst :
    riskVol [100, 102, 101, 105] = spec_volatility [100, 102, 101, 105] ∧
    riskAnnualReturn [100, 102, 101, 105]
      = spec_annualReturn [100, 102, 101, 105] ∧
    (spec_dailyReturns ([100, 102, 101, 105] : List ℝ)).length = 3 := by
  have h := risk_stats_from_daily_returns [100, 102, 101, 105] (by simp)
  exact ⟨h.1, h.2.1, by rw [h.2.2]; simp⟩

/-- A live-price lookup that fails everywhere. -/
def noPrices : String → Option ℚ := fun _ => none

/-- A second sample holding: 2 shares of "B" bought two years ago at
20. -/
def rowB : RawRow :=
  { symbol := "B", quantity := 2, buyPrice := 20, daysHeld := 730 }

/-- A well-formed two-row file holding "A" and "B". -/
def mixedFile : UploadedFile :=
  { hasSymbol := true, hasQuantity := true, hasBuyPrice := true,
    hasBuyDate := true, rows := [sampleRow, rowB] }

/-- A lookup that fails for "B" only: the applied column is float, with
one `NaN` cell. -/
def mixedPrices : String → Option ℚ :=
  fun s => if s = "B" then none else some 100

/-- C2 counterexample: with the sample one-row file (buy price `10 > 0`)
and *every* live-price lookup failing, the `LivePrice` column stays an
object-dtype column of `None` and the run dies at the line-62 CAGR apply
with an uncaught `TypeError` (`None / 10`): the holdings table never
renders and no aggregate is computed, so the failed-lookup row is not
retained and nothing is skipped or flagged — the claim fails on this
input. -/
theorem all_lookups_failed_crash :
    runScript sampleFile noPrices sampleSector sampleHist [100, 110]
      = ([Out.successMsg, Out.fetchingHeader, Out.cagrHeader],
         some Err.typeError) ∧
    ∀ rws, Out.holdingsTable rws
      ∉ (runScript sampleFile noPrices sampleSector sampleHist [100, 110]).1 := by
  have he : runScript sampleFile noPrices sampleSector sampleHist [100, 110]
      = ([Out.successMsg, Out.fetchingHeader, Out.cagrHeader],
         some Err.typeError) := by
    norm_num [runScript, sampleFile, sampleRow, noPrices, yearsOf]
  refine ⟨he, ?_⟩
  intro rws
  rw [he]
  simp

/-- C2 (amended): provided at least one row's lookup succeeds (the
`LivePrice` column is then float and failed lookups become `NaN`
cells), a row whose lookup failed is kept with `LivePrice` missing and
its derived cells `CurrentValue`, `P/L`, `Returns %` and `CAGR` are all
`NaN` — never silently `0` — (for a valid row: positive buy price,
nonzero holding period); the row still appears in the rendered holdings
table with its missing price, and the aggregates skip the missing
values: `totalCurrent` and the sector allocation sums are unchanged by
a priceless row.  When instead *every* lookup fails and some row has a
positive buy price, the run aborts with an uncaught `TypeError` in the
CAGR apply before the holdings table renders. -/
theorem lookup_failure_is_isolated (qty buy years : ℚ)
    (cvs : List (Option ℚ)) (srows : List (String × Option ℚ))
    (sct : String) (f : UploadedFile) (live : String → Option ℚ)
    (sector : String → String) (hist : String → List ℚ) (nifty : List ℚ)
    (hb : 0 < buy) (hy : years ≠ 0)
    (h1 : f.hasSymbol = true) (h2 : f.hasQuantity = true)
    (h3 : f.hasBuyPrice = true) (h4 : f.hasBuyDate = true)
    (h5 : f.rows.any (fun r => r.buyPrice > 0 ∧ yearsOf r = 0) = false) :
    currentValue none qty = none ∧
    profitLoss (currentValue none qty) (investedValue buy qty) = none ∧
    returnsPct (profitLoss (currentValue none qty) (investedValue buy qty))
      (investedValue buy qty) = PVal.nan ∧
    cagr_column buy none years = Except.ok RVal.rnan ∧
    nansum (none :: cvs) = nansum cvs ∧
    ((sector_data ((sct, none) :: srows)).map Prod.snd).sum
      = ((sector_data srows).map Prod.snd).sum ∧
    ((f.rows.all (fun r => (live r.symbol).isNone)
        && f.rows.any (fun r => r.buyPrice > 0)) = false →
      Out.holdingsTable (f.rows.map (fun r => (r.symbol, live r.symbol)))
        ∈ (runScript f live sector hist nifty).1) ∧
    ((f.rows.all (fun r => (live r.symbol).isNone)
        && f.rows.any (fun r => r.buyPrice > 0)) = true →
      runScript f live sector hist nifty
        = ([Out.successMsg, Out.fetchingHeader, Out.cagrHeader],
           some Err.typeError)) := by
  refine ⟨rfl, rfl, rfl, ?_, ?_, ?_, ?_, ?_⟩
  · rw [cagr_column, if_pos hb, if_neg hy]
  · simp [nansum]
  · rw [sector_data_sum_eq, sector_data_sum_eq, List.map_cons, nansum_cons]
    simp
  · intro h6
    simp only [runScript, h1, h2, h3, h4, h5, h6]
    simp only [Bool.not_true, if_neg, Bool.false_eq_true, if_false]
    cases nifty with
    | nil => simp
    | cons c cs =>
        obtain ⟨x, hx⟩ := Option.isSome_iff_exists.mp
          (List.getLast?_isSome.mpr (List.cons_ne_nil c cs))
        rw [hx]
        simp
  · intro hc
    simp only [runScript, h1, h2, h3, h4, hc]
    simp

/-- C2 witness: the concrete mixed run — lookup for "A" succeeds, for
"B" fails — and the row-level `NaN` facts at a failed cell. -/
theorem lookup_failure_is_isolated_inst :
    currentValue none 5 = none ∧
    profitLoss (currentValue none 5) (investedValue 10 5) = none ∧
    returnsPct (profitLoss (currentValue none 5) (investedValue 10 5))
      (investedValue 10 5) = PVal.nan ∧
    cagr_column 10 none 1 = Except.ok RVal.rnan ∧
    nansum (none :: [some 3]) = nansum [some 3] ∧
    ((sector_data (("Fin", none) :: [("Util", some 7)])).map Prod.snd).sum
      = ((sector_data [("Util", some 7)]).map Prod.snd).sum ∧
    Out.holdingsTable (mixedFile.rows.map
        (fun r => (r.symbol, mixedPrices r.symbol)))
      ∈ (runScript mixedFile mixedPrices sampleSector sampleHist
          [100, 110]).1 := by
  have h := lookup_failure_is_isolated 5 10 1 [some 3] [("Util", some 7)]
    "Fin" mixedFile mixedPrices sampleSector sampleHist [100, 110]
    (by norm_num) (by norm_num) rfl rfl rfl rfl
    (by norm_num [mixedFile, sampleRow, rowB, yearsOf])
  exact ⟨h.1, h.2.1, h.2.2.1, h.2.2.2.1, h.2.2.2.2.1, h.2.2.2.2.2.1,
    h.2.2.2.2.2.2.1 (by simp [mixedFile, sampleRow, rowB, mixedPrices])⟩

/-- C3 counterexample: the symbol "A" has a 1-point history — fewer than
2 points — yet it appears in the rendered risk table: the code only
skips an *empty* history (line 96), not a 1-point one. -/
theorem one_point_history_in_risk_table :
    (([100] : List ℚ)).length < 2 ∧
    Out.riskTable ["A"] ∈ (runScript sampleFile samplePrices sampleSector
      (fun _ => [100]) [100, 110]).1 := by
  constructor
  · simp
  · norm_num [runScript, sampleFile, sampleRow, samplePrices, yearsOf,
      sector_data, nansum, currentValue, investedValue, pdiv, pmul100]

/-- C3 (amended): only symbols whose fetched 1-year history is *empty*
are skipped from the risk set (without an error); any symbol with a
non-empty history — even a single point — appears in the risk table,
whose row list is exactly the held symbols with non-empty history, and a
1-point history yields `NaN` volatility and annual return (no defined
daily returns).  (Hypothesis `h6`: not every live-price lookup failed
while some row has a positive buy price — otherwise the run dies in the
line-62 CAGR apply with a `TypeError` before the risk section; see the
C2 analysis.) -/
theorem risk_table_contents (f : UploadedFile) (live : String → Option ℚ)
    (sector : String → String) (hist : String → List ℚ) (nifty : List ℚ)
    (h1 : f.hasSymbol = true) (h2 : f.hasQuantity = true)
    (h3 : f.hasBuyPrice = true) (h4 : f.hasBuyDate = true)
    (h5 : f.rows.any (fun r => r.buyPrice > 0 ∧ yearsOf r = 0) = false)
    (h6 : (f.rows.all (fun r => (live r.symbol).isNone)
      && f.rows.any (fun r => r.buyPrice > 0)) = false) :
    (∀ l, Out.riskTable l ∈ (runScript f live sector hist nifty).1 →
      l = (f.rows.map RawRow.symbol).filter (fun s => ¬ (hist s).isEmpty)) ∧
    ((f.rows.map RawRow.symbol).filter (fun s => ¬ (hist s).isEmpty) ≠ [] →
      Out.riskTable ((f.rows.map RawRow.symbol).filter
          (fun s => ¬ (hist s).isEmpty))
        ∈ (runScript f live sector hist nifty).1) ∧
    (∀ s, s ∈ (f.rows.map RawRow.symbol).filter (fun s => ¬ (hist s).isEmpty)
      ↔ s ∈ f.rows.map RawRow.symbol ∧ (hist s).isEmpty = false) ∧
    (∀ x : ℝ, riskVol [x] = RVal.rnan ∧ riskAnnualReturn [x] = RVal.rnan) := by
  refine ⟨?_, ?_, ?_, ?_⟩
  · intro l hl
    simp only [runScript, h1, h2, h3, h4, h5, h6] at hl
    cases nifty with
    | nil =>
        simp at hl ⊢
        exact hl.2
    | cons c cs =>
        obtain ⟨x, hx⟩ := Option.isSome_iff_exists.mp
          (List.getLast?_isSome.mpr (List.cons_ne_nil c cs))
        rw [hx] at hl
        simp at hl ⊢
        exact hl.2
  · intro hne
    have hex : ∃ r ∈ f.rows, ¬ hist r.symbol = [] := by
      by_contra hc
      push_neg at hc
      apply hne
      apply List.filter_eq_nil_iff.mpr
      intro s hs
      obtain ⟨r, hr, rfl⟩ := List.mem_map.mp hs
      simp [hc r hr]
    simp only [runScript, h1, h2, h3, h4, h5, h6]
    cases nifty with
    | nil =>
        simp
        exact hex
    | cons c cs =>
        obtain ⟨x, hx⟩ := Option.isSome_iff_exists.mp
          (List.getLast?_isSome.mpr (List.cons_ne_nil c cs))
        rw [hx]
        simp
        exact hex
  · intro s
    simp [List.mem_filter]
  · intro x
    constructor
    · norm_num [riskVol, pstd, pct_change, pctAux, pstdList, RVal.scale]
    · norm_num [riskAnnualReturn, pmean, pct_change, pctAux, pmeanList,
        RVal.scale]

/-- C3 witness: on the sample run (1-point histories throughout) the risk
table renders exactly the held symbols, and 1-point statistics are
`NaN`. -/
theorem risk_table_contents_inst :
    Out.riskTable ((sampleFile.rows.map RawRow.symbol).filter
        (fun s => ¬ (sampleHist s).isEmpty))
      ∈ (runScript sampleFile samplePrices sampleSector sampleHist
          [100, 110]).1 ∧
    riskVol [50] = RVal.rnan ∧ riskAnnualReturn [50] = RVal.rnan := by
  have h := risk_table_contents sampleFile samplePrices sampleSector
    sampleHist [100, 110] rfl rfl rfl rfl
    (by norm_num [sampleFile, sampleRow, yearsOf])
    (by norm_num [sampleFile, sampleRow, samplePrices])
  exact ⟨h.2.1 (by simp [sampleFile, sampleRow, sampleHist]),
    (h.2.2.2 50).1, (h.2.2.2 50).2⟩

/-- C5 counterexample: with an empty benchmark series the run ends in an
*uncaught* `IndexError` (from `nifty.iloc[-1]`), and the closing info
message that follows the comparison section is never rendered: the
failure is not reported as a skipped section, it aborts the script. -/
theorem empty_benchmark_crash :
    (runScript sampleFile samplePrices sampleSector sampleHist []).2
      = some Err.indexError ∧
    Out.uploadInfo
      ∉ (runScript sampleFile samplePrices sampleSector sampleHist []).1 := by
  constructor
  · norm_num [runScript, sampleFile, sampleRow, samplePrices, yearsOf,
      sector_data, nansum, currentValue, investedValue]
  · norm_num [runScript, sampleFile, sampleRow, samplePrices, yearsOf,
      sector_data, nansum, currentValue, investedValue]
    simp [sampleHist]

/-- C5 (amended): if the benchmark series is empty, `nifty.iloc[-1]`
raises an unhandled `IndexError`.  The sections *before* it (holdings
table, summary metrics, sector allocation, risk section) have already
rendered, but no comparison metric and nothing after it (the closing
info message) renders, and no recoverable data-unavailable report is
produced: the rendered output is exactly the pre-benchmark prefix and
the run ends in the exception.  (Hypothesis `h6`: not every live-price
lookup failed while some row has a positive buy price — otherwise the
run dies earlier, in the line-62 CAGR apply with a `TypeError`; see
the C2 analysis.) -/
theorem empty_benchmark_behavior (f : UploadedFile)
    (live : String → Option ℚ) (sector : String → String)
    (hist : String → List ℚ)
    (h1 : f.hasSymbol = true) (h2 : f.hasQuantity = true)
    (h3 : f.hasBuyPrice = true) (h4 : f.hasBuyDate = true)
    (h5 : f.rows.any (fun r => r.buyPrice > 0 ∧ yearsOf r = 0) = false)
    (h6 : (f.rows.all (fun r => (live r.symbol).isNone)
      && f.rows.any (fun r => r.buyPrice > 0)) = false) :
    runScript f live sector hist [] =
      ([Out.successMsg, Out.fetchingHeader, Out.cagrHeader,
        Out.holdingsTable (f.rows.map (fun r => (r.symbol, live r.symbol))),
        Out.summaryHeader,
        Out.metricTotalInvested
          ((f.rows.map (fun r => investedValue r.buyPrice r.quantity)).sum),
        Out.metricTotalCurrent
          (nansum (f.rows.map (fun r => currentValue (live r.symbol) r.quantity))),
        Out.metricTotalPL
          (nansum (f.rows.map (fun r => currentValue (live r.symbol) r.quantity))
            - (f.rows.map (fun r => investedValue r.buyPrice r.quantity)).sum),
        Out.sectorHeader,
        Out.sectorPie (sector_data (f.rows.map
          (fun r => (sector r.symbol, currentValue (live r.symbol) r.quantity)))),
        Out.riskHeader]
        ++ (if ((f.rows.map RawRow.symbol).filter
              (fun s => ¬ (hist s).isEmpty)).isEmpty then []
            else [Out.riskTable ((f.rows.map RawRow.symbol).filter
                (fun s => ¬ (hist s).isEmpty)), Out.riskScatter])
        ++ [Out.benchHeader],
       some Err.indexError) := by
  simp only [runScript, h1, h2, h3, h4, h5, h6]
  simp

/-- C5 witness: the concrete empty-benchmark run on the sample
portfolio. -/
theorem empty_benchmark_behavior_inst :
    runScript sampleFile samplePrices sampleSector sampleHist [] =
      ([Out.successMsg, Out.fetchingHeader, Out.cagrHeader,
        Out.holdingsTable (sampleFile.rows.map
          (fun r => (r.symbol, samplePrices r.symbol))),
        Out.summaryHeader,
        Out.metricTotalInvested
          ((sampleFile.rows.map (fun r => investedValue r.buyPrice r.quantity)).sum),
        Out.metricTotalCurrent
          (nansum (sampleFile.rows.map
            (fun r => currentValue (samplePrices r.symbol) r.quantity))),
        Out.metricTotalPL
          (nansum (sampleFile.rows.map
            (fun r => currentValue (samplePrices r.symbol) r.quantity))
            - (sampleFile.rows.map (fun r => investedValue r.buyPrice r.quantity)).sum),
        Out.sectorHeader,
        Out.sectorPie (sector_data (sampleFile.rows.map
          (fun r => (sampleSector r.symbol,
            currentValue (samplePrices r.symbol) r.quantity)))),
        Out.riskHeader]
        ++ (if ((sampleFile.rows.map RawRow.symbol).filter
              (fun s => ¬ (sampleHist s).isEmpty)).isEmpty then []
            else [Out.riskTable ((sampleFile.rows.map RawRow.symbol).filter
                (fun s => ¬ (sampleHist s).isEmpty)), Out.riskScatter])
        ++ [Out.benchHeader],
       some Err.indexError) :=
  empty_benchmark_behavior sampleFile samplePrices sampleSector sampleHist
    rfl rfl rfl rfl (by norm_num [sampleFile, sampleRow, yearsOf])
    (by norm_num [sampleFile, sampleRow, samplePrices])

/-- C9 counterexample: a file missing the `Symbol` column is *not*
rejected by a schema check with the whole analysis aborted cleanly; the
upload-success message has already rendered (partial output) and the run
then dies with a generic `KeyError` at the first column access. -/
theorem missing_symbol_column :
    runScript { sampleFile with hasSymbol := false } samplePrices
        sampleSector sampleHist [100, 110]
      = ([Out.successMsg, Out.fetchingHeader], some Err.keyError) ∧
    ([Out.successMsg, Out.fetchingHeader] : List Out) ≠ [] := by
  constructor
  · norm_num [runScript]
  · simp

/-- C9 (amended): there is no upfront schema validation.  A missing
required column (`Symbol`, `Quantity`, `BuyPrice` or `BuyDate`) causes
an unhandled `KeyError` at that column's first access; the analysis past
that point (in particular the holdings table) is aborted, but the
outputs already rendered — at least the upload-success message — remain:
the abort is not free of partial results. -/
theorem missing_column_behavior (f : UploadedFile)
    (live : String → Option ℚ) (sector : String → String)
    (hist : String → List ℚ) (nifty : List ℚ)
    (h : f.hasSymbol = false ∨ f.hasQuantity = false ∨
      f.hasBuyPrice = false ∨ f.hasBuyDate = false) :
    (runScript f live sector hist nifty).2 = some Err.keyError ∧
    Out.successMsg ∈ (runScript f live sector hist nifty).1 ∧
    ∀ rws, Out.holdingsTable rws ∉ (runScript f live sector hist nifty).1 := by
  by_cases hs : f.hasSymbol <;> by_cases hq : f.hasQuantity <;>
    by_cases hbp : f.hasBuyPrice <;> by_cases hbd : f.hasBuyDate <;>
    simp [runScript, hs, hq, hbp, hbd] <;> simp_all

/-- C9 witness: the concrete missing-`Symbol` file. -/
theorem missing_column_behavior_inst :
    (runScript { sampleFile with hasSymbol := false } samplePrices
        sampleSector sampleHist [100, 110]).2 = some Err.keyError ∧
    Out.successMsg ∈ (runScript { sampleFile with hasSymbol := false }
        samplePrices sampleSector sampleHist [100, 110]).1 ∧
    ∀ rws, Out.holdingsTable rws
      ∉ (runScript { sampleFile with hasSymbol := false } samplePrices
          sampleSector sampleHist [100, 110]).1 :=
  missing_column_behavior _ samplePrices sampleSector sampleHist [100, 110]
    (Or.inl rfl)
